import Mathlib

/-!
Verification development for the phone-verification service.

The verification-code lifecycle lives on the `User` mongoose schema
(instance methods `generateVerificationCode`, `verifyCode`,
`canRequestVerificationCode` and the static `cleanupExpiredCodes`).
We embed the account record and those four operations as pure Lean
functions over an explicit account state; JavaScript timestamps
(milliseconds since the epoch) are `Nat`, and the one truly mutable
record is passed and returned explicitly.
-/

/-- The account record of the `User` schema, restricted to the fields the
verification state machine reads or writes.  Optional schema fields are
`Option`s.  `verificationAttempts` defaults to 0 in the schema. -/
structure Account where
  phoneNumber : String
  isPhoneVerified : Bool
  verificationCode : Option String
  verificationCodeExpiry : Option Nat
  verificationAttempts : Nat
  lastVerificationAttempt : Option Nat
  isActive : Bool
  deriving Repr, DecidableEq

/-- An account as both controllers create it (`new User({phoneNumber,
isPhoneVerified: false, isActive: true})`): schema defaults give
`verificationAttempts = 0` and leave the optional fields absent. -/
def freshAccount (phone : String) : Account :=
  { phoneNumber := phone
    isPhoneVerified := false
    verificationCode := none
    verificationCodeExpiry := none
    verificationAttempts := 0
    lastVerificationAttempt := none
    isActive := true }

/-- Embedding of `generateVerificationCode`: the random draw
`Math.floor(100000 + Math.random() * 900000)` is `100000 + r` where
`r` models `Math.floor(Math.random() * 900000)`, so `r < 900000`;
`.toString()` is `Nat.repr`.  `ttl` is the configured
`VERIFICATION_CODE_EXPIRY` in milliseconds and `now` is `Date.now()`.
Returns the code together with the mutated account. -/
def generateVerificationCode (u : Account) (now ttl r : Nat) : String × Account :=
  let code := Nat.repr (100000 + r)
  (code,
   { u with
      verificationCode := some code
      verificationCodeExpiry := some (now + ttl)
      verificationAttempts := u.verificationAttempts + 1
      lastVerificationAttempt := some now })

/-- The `{success, message}` object returned by `verifyCode`. -/
structure VerifyOutcome where
  success : Bool
  message : String
  deriving Repr, DecidableEq

/-- Message of the no-code failure branch of `verifyCode`
(the spec's `NO_CODE_ISSUED`). -/
def noCodeMsg : String := "No verification code found"

/-- Message of the expired-code failure branch of `verifyCode`
(the spec's `CODE_EXPIRED`). -/
def expiredMsg : String := "Verification code has expired"

/-- Message of the wrong-code failure branch of `verifyCode`
(the spec's `CODE_MISMATCH`). -/
def mismatchMsg : String := "Invalid verification code"

/-- Message of the success branch of `verifyCode`. -/
def verifiedMsg : String := "Phone number verified successfully"

/-- Embedding of `verifyCode(code)`.  The guard `!this.verificationCode ||
!this.verificationCodeExpiry` is true when either field is absent, and
also when the stored code is the empty string (falsy in JavaScript);
a stored `Date` object is always truthy.  The expiry test is the strict
`this.verificationCodeExpiry < new Date()`, the code test the exact
string comparison `this.verificationCode !== code`.  Failure branches
return before any field is written; the success branch sets
`isPhoneVerified`, clears code and expiry, and zeroes the counter. -/
def verifyCode (u : Account) (code : String) (now : Nat) : VerifyOutcome × Account :=
  match u.verificationCode, u.verificationCodeExpiry with
  | some stored, some expiry =>
      if stored = "" then
        ({ success := false, message := noCodeMsg }, u)
      else if expiry < now then
        ({ success := false, message := expiredMsg }, u)
      else if stored ≠ code then
        ({ success := false, message := mismatchMsg }, u)
      else
        ({ success := true, message := verifiedMsg },
         { u with
            isPhoneVerified := true
            verificationCode := none
            verificationCodeExpiry := none
            verificationAttempts := 0 })
  | _, _ => ({ success := false, message := noCodeMsg }, u)

/-- The `maxAttempts` constant of `canRequestVerificationCode`. -/
def maxAttempts : Nat := 5

/-- The `cooldownPeriod` constant: 15 minutes in milliseconds. -/
def cooldownPeriod : Nat := 15 * 60 * 1000

/-- Result of `canRequestVerificationCode`.  The JavaScript denial carries
the rounded-up remaining minutes embedded in a human-readable message;
we keep that number in `remainingMinutes` (`none` on the allow path,
which returns `{ canRequest: true }` with no message). -/
structure CanRequestResult where
  canRequest : Bool
  remainingMinutes : Option Nat
  deriving Repr, DecidableEq

/-- Embedding of `canRequestVerificationCode()`.  When `verificationAttempts >= 5` the
method dereferences `this.lastVerificationAttempt.getTime()`; if that
field is absent the JavaScript call throws, which we model as `none`.
`timeSinceLastAttempt` is the signed difference `Date.now() - last`.
`Math.ceil((cooldownPeriod - timeSinceLastAttempt) / 60000)` is computed
on the deny branch only, where the numerator is positive, so the
round-up formula `(x + 59999) / 60000` on its `toNat` is exact.
On the cooldown-elapsed branch the method resets `verificationAttempts`
to 0 and falls through to the allow return. -/
def canRequestVerificationCode (u : Account) (now : Nat) :
    Option (CanRequestResult × Account) :=
  if u.verificationAttempts ≥ maxAttempts then
    match u.lastVerificationAttempt with
    | none => none
    | some last =>
        let timeSinceLastAttempt : Int := (now : Int) - (last : Int)
        if timeSinceLastAttempt < (cooldownPeriod : Int) then
          let remainingTime : Nat :=
            (((cooldownPeriod : Int) - timeSinceLastAttempt).toNat + 59999) / 60000
          some ({ canRequest := false, remainingMinutes := some remainingTime }, u)
        else
          some ({ canRequest := true, remainingMinutes := none },
                { u with verificationAttempts := 0 })
  else
    some ({ canRequest := true, remainingMinutes := none }, u)

/-- The per-account effect of the static `cleanupExpiredCodes` sweep:
`updateMany({verificationCodeExpiry: {$lt: new Date()}}, {$unset:
{verificationCode: 1, verificationCodeExpiry: 1}})` unsets both code
fields on every account whose stored expiry is strictly before now;
accounts without the field do not match the `$lt` filter. -/
def cleanupExpiredCodes (u : Account) (now : Nat) : Account :=
  match u.verificationCodeExpiry with
  | some expiry =>
      if expiry < now then
        { u with verificationCode := none, verificationCodeExpiry := none }
      else u
  | none => u

/-- One invocation of a state-machine operation, with the inputs the
caller supplies (current time, configured TTL, random draw, candidate
code). -/
inductive Op where
  | generate (now ttl r : Nat)
  | verify (candidate : String) (now : Nat)
  | canRequest (now : Nat)
  | cleanup (now : Nat)
  deriving Repr, DecidableEq

/-- The state after applying one operation.  A `canRequest` call that
would throw (absent `lastVerificationAttempt`) mutates nothing: the
exception is raised before any assignment. -/
def applyOp (u : Account) : Op → Account
  | .generate now ttl r => (generateVerificationCode u now ttl r).2
  | .verify candidate now => (verifyCode u candidate now).2
  | .canRequest now =>
      match canRequestVerificationCode u now with
      | some (_, u2) => u2
      | none => u
  | .cleanup now => cleanupExpiredCodes u now

/-- Account states reachable from a freshly created account by the
state-machine operations. -/
inductive Reachable : Account → Prop
  | fresh (phone : String) : Reachable (freshAccount phone)
  | step {u : Account} (op : Op) : Reachable u → Reachable (applyOp u op)

/-- Every character `Nat.digitChar` produces for a value below ten is a
decimal digit. -/
lemma digitChar_isDigit : ∀ m : Nat, m < 10 → (Nat.digitChar m).isDigit = true := by
  decide

/-- With enough fuel, `Nat.toDigitsCore` in base ten prepends exactly one
character per decimal digit of a positive number. -/
lemma toDigitsCore_length_eq :
    ∀ (fuel n : Nat) (acc : List Char), 0 < n → n < 10 ^ fuel →
      (Nat.toDigitsCore 10 fuel n acc).length = Nat.log 10 n + 1 + acc.length := by
  intro fuel
  induction fuel with
  | zero =>
      intro n acc hn hlt
      simp only [pow_zero] at hlt
      omega
  | succ f ih =>
      intro n acc hn hlt
      simp only [Nat.toDigitsCore]
      by_cases h10 : n / 10 = 0
      · have hnlt : n < 10 := by omega
        have hlog : Nat.log 10 n = 0 := Nat.log_eq_zero_iff.mpr (Or.inl hnlt)
        simp [h10, hlog]
        omega
      · rw [if_neg h10]
        have hdivpos : 0 < n / 10 := Nat.pos_of_ne_zero h10
        have hge : 10 ≤ n := by omega
        have hdivlt : n / 10 < 10 ^ f := by
          have := (Nat.div_lt_iff_lt_mul (by norm_num : 0 < 10)).mpr
            (by rw [← pow_succ]; exact hlt)
          exact this
        have hlogpos : 0 < Nat.log 10 n := Nat.log_pos (by norm_num) hge
        have hlogdiv : Nat.log 10 (n / 10) = Nat.log 10 n - 1 := Nat.log_div_base 10 n
        rw [ih (n / 10) (Nat.digitChar (n % 10) :: acc) hdivpos hdivlt]
        simp only [List.length_cons]
        omega

/-- Characters accumulated by `Nat.toDigitsCore` in base ten are decimal
digits whenever the accumulator's are. -/
lemma toDigitsCore_isDigit :
    ∀ (fuel n : Nat) (acc : List Char), (∀ c ∈ acc, c.isDigit = true) →
      ∀ c ∈ Nat.toDigitsCore 10 fuel n acc, c.isDigit = true := by
  intro fuel
  induction fuel with
  | zero => intro n acc hacc; exact hacc
  | succ f ih =>
      intro n acc hacc
      have hd : (Nat.digitChar (n % 10)).isDigit = true :=
        digitChar_isDigit (n % 10) (Nat.mod_lt n (by norm_num))
      have hacc2 : ∀ c ∈ Nat.digitChar (n % 10) :: acc, c.isDigit = true := by
        intro c hc
        rcases List.mem_cons.mp hc with h | h
        · exact h ▸ hd
        · exact hacc c h
      simp only [Nat.toDigitsCore]
      by_cases h10 : n / 10 = 0
      · rw [if_pos h10]; exact hacc2
      · rw [if_neg h10]; exact ih (n / 10) (Nat.digitChar (n % 10) :: acc) hacc2

/-- The decimal string of a positive number has one character per decimal
digit. -/
lemma repr_length_eq (n : Nat) (hn : 0 < n) :
    (Nat.repr n).length = Nat.log 10 n + 1 := by
  show (Nat.toDigitsCore 10 (n + 1) n []).length = Nat.log 10 n + 1
  have hfuel : n < 10 ^ (n + 1) :=
    lt_of_lt_of_le (Nat.lt_pow_self (by norm_num) n)
      (Nat.pow_le_pow_right (by norm_num) (Nat.le_succ n))
  rw [toDigitsCore_length_eq (n + 1) n [] hn hfuel]
  rfl

/-- The decimal string of a number between 100000 and 999999 has exactly
six characters. -/
lemma repr_length_six {n : Nat} (h1 : 100000 ≤ n) (h2 : n ≤ 999999) :
    (Nat.repr n).length = 6 := by
  rw [repr_length_eq n (by omega)]
  have hlog : Nat.log 10 n = 5 :=
    Nat.log_eq_of_pow_le_of_lt_pow (by omega) (by norm_num; omega)
  omega

/-- Every character of a decimal `Nat.repr` string is a digit. -/
lemma repr_isDigit (n : Nat) : ∀ c ∈ (Nat.repr n).data, c.isDigit = true := by
  show ∀ c ∈ Nat.toDigitsCore 10 (n + 1) n [], c.isDigit = true
  exact toDigitsCore_isDigit (n + 1) n [] (by simp)

/-- A six-character string is not the empty string. -/
lemma repr_ne_empty {n : Nat} (h1 : 100000 ≤ n) (h2 : n ≤ 999999) :
    Nat.repr n ≠ "" := by
  intro h
  have := repr_length_six h1 h2
  rw [h] at this
  simp at this

example : (verifyCode (freshAccount "+15551230000") "123456" 0).1.message = noCodeMsg := by
  rfl

example :
    (generateVerificationCode (freshAccount "p") 0 120000 0).1 = "100000" := by rfl

example :
    (verifyCode (generateVerificationCode (freshAccount "p") 0 120000 0).2
      "100000" 0).1.success = true := by rfl

example :
    (canRequestVerificationCode (freshAccount "p") 0) =
      some ({ canRequest := true, remainingMinutes := none }, freshAccount "p") := by rfl

/-- The function `verifyCode` either leaves the account untouched (every failure
branch) or performs exactly the success-branch update. -/
lemma verifyCode_state (u : Account) (c : String) (now : Nat) :
    (verifyCode u c now).2 = u ∨
    (verifyCode u c now).2 =
      { u with isPhoneVerified := true, verificationCode := none,
               verificationCodeExpiry := none, verificationAttempts := 0 } := by
  unfold verifyCode
  cases hc : u.verificationCode with
  | none => left; rfl
  | some stored =>
      cases he : u.verificationCodeExpiry with
      | none => left; rfl
      | some expiry =>
          by_cases h1 : stored = ""
          · left; simp [h1]
          · by_cases h2 : expiry < now
            · left; simp [h1, h2]
            · by_cases h3 : stored = c
              · right; subst h3; simp [h1, h2]
              · left; simp [h1, h2, h3]

/-- The check `canRequestVerificationCode` either leaves the account untouched or
only zeroes `verificationAttempts`. -/
lemma canRequest_state (u : Account) (now : Nat) :
    applyOp u (Op.canRequest now) = u ∨
    applyOp u (Op.canRequest now) = { u with verificationAttempts := 0 } := by
  simp only [applyOp]
  unfold canRequestVerificationCode
  by_cases h5 : u.verificationAttempts ≥ maxAttempts
  · cases hl : u.lastVerificationAttempt with
    | none => left; simp [h5]
    | some last =>
        by_cases hlt : ((now : Int) - (last : Int)) < (cooldownPeriod : Int)
        · left; simp [h5, hlt]
        · right; simp [h5, hlt]
  · left; simp [h5]

/-- The per-account cleanup sweep either leaves the account untouched or
only unsets the code and expiry fields. -/
lemma cleanup_state (u : Account) (now : Nat) :
    cleanupExpiredCodes u now = u ∨
    cleanupExpiredCodes u now =
      { u with verificationCode := none, verificationCodeExpiry := none } := by
  unfold cleanupExpiredCodes
  cases u.verificationCodeExpiry with
  | none => left; rfl
  | some expiry =>
      by_cases h : expiry < now
      · right; simp [h]
      · left; simp [h]

/-- An account that has completed verification, as `verifyCode` leaves it. -/
def verifiedAccount : Account :=
  { phoneNumber := "+15559998888"
    isPhoneVerified := true
    verificationCode := none
    verificationCodeExpiry := none
    verificationAttempts := 0
    lastVerificationAttempt := some 0
    isActive := true }

/-- C9: a failing `verifyCode` call leaves every field of the account
unchanged; in particular `verificationAttempts` is not incremented and an
expired code is not cleared by the failing call. -/
theorem verifyCode_failure_frame (u : Account) (candidate : String) (now : Nat)
    (h : (verifyCode u candidate now).1.success = false) :
    (verifyCode u candidate now).2 = u := by
  unfold verifyCode at h ⊢
  cases hc : u.verificationCode with
  | none => simp [hc]
  | some stored =>
      cases he : u.verificationCodeExpiry with
      | none => simp [hc, he]
      | some expiry =>
          by_cases h1 : stored = ""
          · simp [hc, he, h1]
          · by_cases h2 : expiry < now
            · simp [hc, he, h1, h2]
            · by_cases h3 : stored = candidate
              · subst h3; simp [hc, he, h1, h2] at h
              · simp [hc, he, h1, h2, h3]

/-- Witness for `verifyCode_failure_frame` at a fresh account (no code
issued, so the call fails). -/
theorem verifyCode_failure_frame_witness :
    (verifyCode (freshAccount "+15551230000") "123456" 0).2 =
      freshAccount "+15551230000" :=
  verifyCode_failure_frame (freshAccount "+15551230000") "123456" 0 rfl

/-- C8: no state-machine operation ever changes `isPhoneVerified` from
true to false, for any account state and any operation inputs. -/
theorem isPhoneVerified_sticky (u : Account) (op : Op)
    (h : u.isPhoneVerified = true) : (applyOp u op).isPhoneVerified = true := by
  cases op with
  | generate now ttl r => simpa [applyOp, generateVerificationCode] using h
  | verify candidate now =>
      rcases verifyCode_state u candidate now with hs | hs <;>
        simp only [applyOp] <;> rw [hs]
      · exact h
  | canRequest now =>
      rcases canRequest_state u now with hs | hs <;> rw [hs]
      · exact h
      · exact h
  | cleanup now =>
      rcases cleanup_state u now with hs | hs <;> simp only [applyOp] <;> rw [hs]
      · exact h
      · exact h

/-- Witness for `isPhoneVerified_sticky` at a verified account under a
cleanup sweep. -/
theorem isPhoneVerified_sticky_witness :
    (applyOp verifiedAccount (Op.cleanup 1000)).isPhoneVerified = true :=
  isPhoneVerified_sticky verifiedAccount (Op.cleanup 1000) rfl

/-- An account holding the code `"123456"` with expiry timestamp 100. -/
def boundaryAccount : Account :=
  { phoneNumber := "+15551230000"
    isPhoneVerified := false
    verificationCode := some "123456"
    verificationCodeExpiry := some 100
    verificationAttempts := 1
    lastVerificationAttempt := some 0
    isActive := true }

/-- C2 counterexample: at the exact expiry instant (`now = expiry = 100`)
the matching candidate is accepted, not rejected as expired, so the
inclusive-boundary claim fails. -/
theorem verifyCode_expiry_boundary_counterexample :
    boundaryAccount.verificationCodeExpiry = some 100 ∧
    (verifyCode boundaryAccount "123456" 100).1.success = true ∧
    (verifyCode boundaryAccount "123456" 100).1.message ≠ expiredMsg := by
  refine ⟨rfl, rfl, ?_⟩
  decide

/-- C2 amended: the expiry test `this.verificationCodeExpiry < new Date()`
is strict, so with a (nonempty) code outstanding `verifyCode` fails with
`CODE_EXPIRED` exactly when now is strictly past the stored expiry; at
`now = expiry` the code is not treated as expired. -/
theorem verifyCode_expiry_strict (u : Account) (stored candidate : String)
    (expiry now : Nat)
    (hc : u.verificationCode = some stored) (hne : stored ≠ "")
    (he : u.verificationCodeExpiry = some expiry) :
    (expiry < now →
      verifyCode u candidate now = ({ success := false, message := expiredMsg }, u)) ∧
    (now ≤ expiry → (verifyCode u candidate now).1.message ≠ expiredMsg) := by
  constructor
  · intro hlt
    simp [verifyCode, hc, he, hne, hlt]
  · intro hle
    have hnlt : ¬ expiry < now := Nat.not_lt.mpr hle
    by_cases h3 : stored = candidate
    · subst h3; simp [verifyCode, hc, he, hne, hnlt]; decide
    · simp [verifyCode, hc, he, hne, hnlt, h3]; decide

/-- Witness for `verifyCode_expiry_strict`: one instant past the expiry
the call reports the expired-code failure. -/
theorem verifyCode_expiry_strict_witness :
    verifyCode boundaryAccount "000000" 101 =
      ({ success := false, message := expiredMsg }, boundaryAccount) :=
  (verifyCode_expiry_strict boundaryAccount "123456" "000000" 100 101 rfl
    (by decide) rfl).1 (by decide)

/-- C4: with a (nonempty) code outstanding and the current time not past
the expiry, submitting the stored code succeeds, sets `isPhoneVerified`,
clears the code and expiry, and resets `verificationAttempts` to 0. -/
theorem verifyCode_success_postcondition (u : Account) (stored : String)
    (expiry now : Nat)
    (hc : u.verificationCode = some stored) (hne : stored ≠ "")
    (he : u.verificationCodeExpiry = some expiry) (hfresh : now ≤ expiry) :
    verifyCode u stored now =
      ({ success := true, message := verifiedMsg },
       { u with isPhoneVerified := true, verificationCode := none,
                verificationCodeExpiry := none, verificationAttempts := 0 }) := by
  simp [verifyCode, hc, he, hne, Nat.not_lt.mpr hfresh]

/-- Witness for `verifyCode_success_postcondition` at the concrete
outstanding-code account. -/
theorem verifyCode_success_postcondition_witness :
    verifyCode boundaryAccount "123456" 50 =
      ({ success := true, message := verifiedMsg },
       { boundaryAccount with
          isPhoneVerified := true, verificationCode := none,
          verificationCodeExpiry := none, verificationAttempts := 0 }) :=
  verifyCode_success_postcondition boundaryAccount "123456" 100 50 rfl
    (by decide) rfl (by decide)

/-- C5: `verifyCode` fails with the no-code message when either stored
field is absent; with a (nonempty) code outstanding it fails with the
expired message — never the mismatch message — whenever now is past the
expiry, regardless of the candidate; and the exact-string mismatch test
is only reached for unexpired codes. -/
theorem verifyCode_failure_precedence (u : Account) (candidate : String) (now : Nat) :
    ((u.verificationCode = none ∨ u.verificationCodeExpiry = none) →
      verifyCode u candidate now = ({ success := false, message := noCodeMsg }, u)) ∧
    (∀ stored expiry, u.verificationCode = some stored → stored ≠ "" →
      u.verificationCodeExpiry = some expiry → expiry < now →
      verifyCode u candidate now = ({ success := false, message := expiredMsg }, u) ∧
        expiredMsg ≠ mismatchMsg) ∧
    (∀ stored expiry, u.verificationCode = some stored → stored ≠ "" →
      u.verificationCodeExpiry = some expiry → now ≤ expiry → stored ≠ candidate →
      verifyCode u candidate now = ({ success := false, message := mismatchMsg }, u)) := by
  refine ⟨?_, ?_, ?_⟩
  · rintro (hc | he)
    · simp [verifyCode, hc]
    · cases hc : u.verificationCode with
      | none => simp [verifyCode, hc]
      | some stored => simp [verifyCode, hc, he]
  · intro stored expiry hc hne he hlt
    refine ⟨by simp [verifyCode, hc, he, hne, hlt], by decide⟩
  · intro stored expiry hc hne he hle h3
    simp [verifyCode, hc, he, hne, Nat.not_lt.mpr hle, h3]

/-- Witness for `verifyCode_failure_precedence`: an expired matching
candidate still reports the expired-code failure. -/
theorem verifyCode_failure_precedence_witness :
    verifyCode boundaryAccount "123456" 101 =
      ({ success := false, message := expiredMsg }, boundaryAccount) :=
  ((verifyCode_failure_precedence boundaryAccount "123456" 101).2.1 "123456" 100
    rfl (by decide) rfl (by decide)).1

/-- C6: for every account state, `generateVerificationCode` produces the
decimal string of `100000 + r` — a six-character all-digit string for a
number in 100000–999999 — stores it, sets the expiry to `now + ttl`,
increments `verificationAttempts` by exactly one, and stamps
`lastVerificationAttempt` with now. -/
theorem generateVerificationCode_postcondition (u : Account) (now ttl r : Nat)
    (hr : r < 900000) :
    (generateVerificationCode u now ttl r).1 = Nat.repr (100000 + r) ∧
    100000 ≤ 100000 + r ∧ 100000 + r ≤ 999999 ∧
    ((generateVerificationCode u now ttl r).1).length = 6 ∧
    (∀ c ∈ ((generateVerificationCode u now ttl r).1).data, c.isDigit = true) ∧
    (generateVerificationCode u now ttl r).2 =
      { u with
          verificationCode := some ((generateVerificationCode u now ttl r).1)
          verificationCodeExpiry := some (now + ttl)
          verificationAttempts := u.verificationAttempts + 1
          lastVerificationAttempt := some now } := by
  refine ⟨rfl, by omega, by omega, ?_, ?_, rfl⟩
  · exact repr_length_six (by omega) (by omega)
  · exact repr_isDigit (100000 + r)

/-- Witness for `generateVerificationCode_postcondition` at a fresh
account with the default 120000 ms TTL and draw 0. -/
theorem generateVerificationCode_postcondition_witness :
    (generateVerificationCode (freshAccount "+15551230000") 0 120000 0).1 =
        Nat.repr 100000 ∧
    ((generateVerificationCode (freshAccount "+15551230000") 0 120000 0).1).length = 6 := by
  have h := generateVerificationCode_postcondition (freshAccount "+15551230000")
    0 120000 0 (by decide)
  exact ⟨h.1, h.2.2.2.1⟩

/-- C7: after `generateVerificationCode` with a positive TTL, immediately
submitting the returned code succeeds, and resubmitting the same code
right after fails with the no-code message on an unchanged state, because
the first success cleared the stored code and expiry. -/
theorem generate_then_verify_once (u : Account) (now ttl r : Nat)
    (hr : r < 900000) (httl : 0 < ttl) :
    ((verifyCode (generateVerificationCode u now ttl r).2
        (generateVerificationCode u now ttl r).1 now).1).success = true ∧
    verifyCode
        (verifyCode (generateVerificationCode u now ttl r).2
          (generateVerificationCode u now ttl r).1 now).2
        (generateVerificationCode u now ttl r).1 now =
      ({ success := false, message := noCodeMsg },
       (verifyCode (generateVerificationCode u now ttl r).2
          (generateVerificationCode u now ttl r).1 now).2) := by
  have hne : Nat.repr (100000 + r) ≠ "" := repr_ne_empty (by omega) (by omega)
  have hnlt : ¬ now + ttl < now := by omega
  constructor
  · simp [generateVerificationCode, verifyCode, hne, hnlt]
  · simp [generateVerificationCode, verifyCode, hne, hnlt]

/-- Witness for `generate_then_verify_once` at a fresh account. -/
theorem generate_then_verify_once_witness :
    ((verifyCode (generateVerificationCode (freshAccount "w7") 0 120000 0).2
        (generateVerificationCode (freshAccount "w7") 0 120000 0).1 0).1).success = true :=
  (generate_then_verify_once (freshAccount "w7") 0 120000 0
    (by decide) (by decide)).1

/-- C1: below five attempts the admission check always allows and mutates
nothing; at five or more attempts with elapsed time under the 15-minute
cooldown it denies with a positive remaining-minutes value that is the
exact round-up of the remaining cooldown; once the cooldown has elapsed
it resets `verificationAttempts` to 0 and allows. -/
theorem canRequestVerificationCode_policy (u : Account) (now : Nat) :
    (u.verificationAttempts < 5 →
      canRequestVerificationCode u now =
        some ({ canRequest := true, remainingMinutes := none }, u)) ∧
    (∀ last, u.lastVerificationAttempt = some last → 5 ≤ u.verificationAttempts →
      (((now : Int) - (last : Int) < (cooldownPeriod : Int)) →
        ∃ m : Nat, 0 < m ∧
          canRequestVerificationCode u now =
            some ({ canRequest := false, remainingMinutes := some m }, u) ∧
          (cooldownPeriod : Int) - ((now : Int) - (last : Int)) ≤ (m : Int) * 60000 ∧
          ((m : Int) - 1) * 60000 < (cooldownPeriod : Int) - ((now : Int) - (last : Int))) ∧
      ((cooldownPeriod : Int) ≤ (now : Int) - (last : Int) →
        canRequestVerificationCode u now =
          some ({ canRequest := true, remainingMinutes := none },
                { u with verificationAttempts := 0 }))) := by
  constructor
  · intro h5
    have hnot : ¬ u.verificationAttempts ≥ maxAttempts := by
      simp only [maxAttempts]; omega
    simp [canRequestVerificationCode, hnot]
  · intro last hlast h5
    have hge : u.verificationAttempts ≥ maxAttempts := by
      simp only [maxAttempts]; omega
    constructor
    · intro hlt
      refine ⟨(((cooldownPeriod : Int) - ((now : Int) - (last : Int))).toNat + 59999) / 60000,
        ?_, ?_, ?_, ?_⟩
      · have hcd : (cooldownPeriod : Int) = 900000 := by simp [cooldownPeriod]
        rw [hcd] at hlt ⊢
        omega
      · simp [canRequestVerificationCode, hge, hlast, hlt]
      · have hcd : (cooldownPeriod : Int) = 900000 := by simp [cooldownPeriod]
        rw [hcd] at hlt ⊢
        omega
      · have hcd : (cooldownPeriod : Int) = 900000 := by simp [cooldownPeriod]
        rw [hcd] at hlt ⊢
        omega
    · intro hle
      have hnlt : ¬ ((now : Int) - (last : Int) < (cooldownPeriod : Int)) := by omega
      simp [canRequestVerificationCode, hge, hlast, hnlt]

/-- An account that has just made its fifth generation, last stamped at
time 0. -/
def throttledAccount : Account :=
  { phoneNumber := "+15559998888"
    isPhoneVerified := false
    verificationCode := some "123456"
    verificationCodeExpiry := some 120000
    verificationAttempts := 5
    lastVerificationAttempt := some 0
    isActive := true }

/-- Witness for `canRequestVerificationCode_policy`: a fresh account is
allowed; the throttled account is denied with exactly 15 minutes
remaining when asked immediately, and allowed with the counter reset
once the full cooldown has elapsed. -/
theorem canRequestVerificationCode_policy_witness :
    canRequestVerificationCode (freshAccount "w1") 0 =
      some ({ canRequest := true, remainingMinutes := none }, freshAccount "w1") ∧
    canRequestVerificationCode throttledAccount 0 =
      some ({ canRequest := false, remainingMinutes := some 15 }, throttledAccount) ∧
    canRequestVerificationCode throttledAccount 900000 =
      some ({ canRequest := true, remainingMinutes := none },
            { throttledAccount with verificationAttempts := 0 }) := by
  refine ⟨?_, ?_, ?_⟩
  · exact (canRequestVerificationCode_policy (freshAccount "w1") 0).1 (by decide)
  · obtain ⟨m, hm, heq, hub, hlb⟩ :=
      (((canRequestVerificationCode_policy throttledAccount 0).2 0 rfl
        (by decide)).1 (by simp [cooldownPeriod]))
    have hm15 : m = 15 := by
      have hcd : (cooldownPeriod : Int) = 900000 := by simp [cooldownPeriod]
      rw [hcd] at hub hlb
      omega
    rw [hm15] at heq
    exact heq
  · exact ((canRequestVerificationCode_policy throttledAccount 900000).2 0 rfl
      (by decide)).2 (by simp [cooldownPeriod])

/-- In every reachable state a nonzero attempt counter comes with a
stamped `lastVerificationAttempt`: `generateVerificationCode` is the only
operation that raises the counter and it always stamps the field, and no
operation ever unsets it. -/
lemma attempts_implies_lastAttempt (u : Account) (h : Reachable u) :
    1 ≤ u.verificationAttempts → u.lastVerificationAttempt ≠ none := by
  induction h with
  | fresh phone => intro h1; simp [freshAccount] at h1
  | @step v op hv ih =>
      cases op with
      | generate now ttl r =>
          intro _
          simp [applyOp, generateVerificationCode]
      | verify candidate now =>
          rcases verifyCode_state v candidate now with hs | hs <;>
            simp only [applyOp] <;> rw [hs]
          · exact ih
          · intro h1; simp at h1
      | canRequest now =>
          rcases canRequest_state v now with hs | hs <;> rw [hs]
          · exact ih
          · intro h1; simp at h1
      | cleanup now =>
          rcases cleanup_state v now with hs | hs <;> simp only [applyOp] <;> rw [hs]
          · exact ih
          · exact ih

/-- C10: on reachable states `verificationAttempts ≥ 1` implies
`lastVerificationAttempt` is present, so the dereference of that field
inside `canRequestVerificationCode` (behind the `>= 5` guard) never
faults: the admission check is total on reachable states. -/
theorem canRequestVerificationCode_total (u : Account) (h : Reachable u) :
    (1 ≤ u.verificationAttempts → u.lastVerificationAttempt ≠ none) ∧
    ∀ now, (canRequestVerificationCode u now).isSome = true := by
  refine ⟨attempts_implies_lastAttempt u h, ?_⟩
  intro now
  by_cases h5 : u.verificationAttempts ≥ maxAttempts
  · have h1 : 1 ≤ u.verificationAttempts := by
      have : maxAttempts = 5 := rfl
      omega
    cases hl : u.lastVerificationAttempt with
    | none => exact absurd hl (attempts_implies_lastAttempt u h h1)
    | some last =>
        by_cases hlt : ((now : Int) - (last : Int)) < (cooldownPeriod : Int)
        · simp [canRequestVerificationCode, h5, hl, hlt]
        · simp [canRequestVerificationCode, h5, hl, hlt]
  · simp [canRequestVerificationCode, h5]

/-- Witness for `canRequestVerificationCode_total` at a fresh account. -/
theorem canRequestVerificationCode_total_witness :
    (canRequestVerificationCode (freshAccount "+15551230000") 0).isSome = true :=
  (canRequestVerificationCode_total (freshAccount "+15551230000")
    (Reachable.fresh "+15551230000")).2 0

/-- The reachable state exhibiting the C3 violation: generate, verify the
code successfully, then generate again on the now-verified account (the
request controller never checks `isPhoneVerified`). -/
def regeneratedAccount : Account :=
  applyOp
    (applyOp (applyOp (freshAccount "+15551230000") (Op.generate 0 120000 0))
      (Op.verify "100000" 0))
    (Op.generate 0 120000 0)

/-- C3 counterexample: a reachable account with `isPhoneVerified = true`
that nevertheless holds an outstanding code, expiry, and a nonzero
attempt counter. -/
theorem verified_cleared_invariant_counterexample :
    Reachable regeneratedAccount ∧
    regeneratedAccount.isPhoneVerified = true ∧
    regeneratedAccount.verificationCode = some "100000" ∧
    regeneratedAccount.verificationCodeExpiry = some 120000 ∧
    regeneratedAccount.verificationAttempts = 1 := by
  refine ⟨?_, ?_, ?_, ?_, ?_⟩
  · exact Reachable.step _ (Reachable.step _ (Reachable.step _
      (Reachable.fresh "+15551230000")))
  · decide
  · decide
  · decide
  · decide

/-- Reachability restricted so that code generation is only applied to
accounts not yet verified.  The request controller does not itself
enforce this guard; it is the usage pattern under which the spec's
verified-implies-cleared invariant holds. -/
inductive ReachableNoRegen : Account → Prop
  | fresh (phone : String) : ReachableNoRegen (freshAccount phone)
  | generate {u : Account} (now ttl r : Nat) : ReachableNoRegen u →
      u.isPhoneVerified = false → ReachableNoRegen (applyOp u (Op.generate now ttl r))
  | verify {u : Account} (candidate : String) (now : Nat) : ReachableNoRegen u →
      ReachableNoRegen (applyOp u (Op.verify candidate now))
  | canReq {u : Account} (now : Nat) : ReachableNoRegen u →
      ReachableNoRegen (applyOp u (Op.canRequest now))
  | cleanup {u : Account} (now : Nat) : ReachableNoRegen u →
      ReachableNoRegen (applyOp u (Op.cleanup now))

/-- C3 amended: in every state reachable without generating a code for an
already-verified account, `isPhoneVerified = true` implies the code and
expiry are absent and `verificationAttempts` is 0.  (Unrestricted, the
invariant fails: `generateVerificationCode` on a verified account
re-populates the fields, see the counterexample.) -/
theorem verified_implies_cleared (u : Account) (h : ReachableNoRegen u) :
    u.isPhoneVerified = true →
    u.verificationCode = none ∧ u.verificationCodeExpiry = none ∧
    u.verificationAttempts = 0 := by
  induction h with
  | fresh phone => intro hv; simp [freshAccount] at hv
  | @generate v now ttl r hv hnv ih =>
      intro hv2
      have : (applyOp v (Op.generate now ttl r)).isPhoneVerified = v.isPhoneVerified := by
        simp [applyOp, generateVerificationCode]
      rw [this, hnv] at hv2
      exact absurd hv2 (by simp)
  | @verify v candidate now hv ih =>
      rcases verifyCode_state v candidate now with hs | hs <;>
        simp only [applyOp] <;> rw [hs]
      · exact ih
      · intro _; simp
  | @canReq v now hv ih =>
      rcases canRequest_state v now with hs | hs <;> rw [hs]
      · exact ih
      · intro hv2
        obtain ⟨hc, he, _⟩ := ih hv2
        exact ⟨hc, he, rfl⟩
  | @cleanup v now hv ih =>
      rcases cleanup_state v now with hs | hs <;> simp only [applyOp] <;> rw [hs]
      · exact ih
      · intro hv2
        obtain ⟨_, _, ha⟩ := ih hv2
        exact ⟨rfl, rfl, ha⟩

/-- Witness for `verified_implies_cleared`: the account right after a
successful verification. -/
theorem verified_implies_cleared_witness :
    (applyOp (applyOp (freshAccount "w3") (Op.generate 0 120000 0))
        (Op.verify "100000" 0)).verificationCode = none ∧
    (applyOp (applyOp (freshAccount "w3") (Op.generate 0 120000 0))
        (Op.verify "100000" 0)).verificationCodeExpiry = none ∧
    (applyOp (applyOp (freshAccount "w3") (Op.generate 0 120000 0))
        (Op.verify "100000" 0)).verificationAttempts = 0 :=
  verified_implies_cleared _
    (ReachableNoRegen.verify "100000" 0
      (ReachableNoRegen.generate 0 120000 0 (ReachableNoRegen.fresh "w3") rfl))
    (by decide)
